import Mathlib

/-!
# Verification development for the kops sources

Shallow embedding of

* `pkg/apis/kops/util/labels.go` (`GetNodeRole`),
* `pkg/model/components/apiserver.go` (`BuildOptions`, `buildAPIServerCount`,
  `configureAggregation`),
* `upup/pkg/fi/cloudup/openstacktasks/poolassociation_fitask.go`
  (`GetLifecycle`, `SetLifecycle`, `GetName`).

Conventions of the embedding:

* a Go pointer `*T` is `Option T` (`none` is the nil pointer);
* a Go slice that the code compares with `nil` is `Option (List T)` (`none` is the nil
  slice); a slice that is only ranged over, measured or indexed is a `List T`;
* a Go `map[string]V` is an association list with unique keys, read by first match;
  the nil map is `none` where the code can meet it;
* Go `int` is 64 bits wide; `int32(x)` wraps modulo `2^32`;
* a runtime panic is an explicit outcome.
-/

namespace Kops

/-! ## Go runtime -/

/-- Runtime panics that the embedded code can raise. -/
inductive Panic where
  | nilDereference
  | indexOutOfRange
  deriving DecidableEq, Repr

/-- Go map with string keys, as an association list. -/
abbrev GoMap (V : Type) := List (String × V)

/-- Map read `m[k]` in the comma-ok form: the value (zero value when absent) and
whether the key is present. -/
def GoMap.index {V : Type} (zero : V) (m : GoMap V) (k : String) : V × Bool :=
  match m.lookup k with
  | some v => (v, true)
  | none => (zero, false)

/-- Map write `m[k] = v`: replaces the binding of `k` or adds one. -/
def GoMap.set {V : Type} (m : GoMap V) (k : String) (v : V) : GoMap V :=
  (k, v) :: m.filter (fun p => p.1 != k)

/-- Conversion `int32(x)` of a Go integer: the low 32 bits, read as two's complement. -/
def int32 (x : Int) : Int :=
  (x + 2147483648) % 4294967296 - 2147483648

/-! ## pkg/apis/kops/util/labels.go -/

/-- The part of `v1.Node` that `GetNodeRole` reads: `ObjectMeta.Labels`, a
`map[string]string` that may be nil. -/
structure Node where
  Labels : Option (GoMap String)
  deriving DecidableEq, Repr

/-- Read of `node.Labels[k]` in the comma-ok form; a nil map reads as empty. -/
def Node.label (node : Node) (k : String) : String × Bool :=
  match node.Labels with
  | none => ("", false)
  | some m => GoMap.index "" m k

/-- Go `GetNodeRole(node *v1.Node) string`; the argument is a pointer, and every path
dereferences it first. -/
def GetNodeRole (node : Option Node) : Except Panic String :=
  match node with
  | none => .error .nilDereference
  | some node =>
    -- Newer labels
    if (node.label "node-role.kubernetes.io/master").2 then
      .ok "master"
    else if (node.label "node-role.kubernetes.io/control-plane").2 then
      .ok "control-plane"
    else if (node.label "node-role.kubernetes.io/node").2 then
      .ok "node"
    else if (node.label "node-role.kubernetes.io/api-server").2 then
      .ok "apiserver"
    else
      -- Older label
      .ok (node.label "kubernetes.io/role").1

/-- Presence of a label key on a node. -/
def Node.hasLabel (node : Node) (k : String) : Prop :=
  ∃ m, node.Labels = some m ∧ ∃ v, (k, v) ∈ m

/-- Value bound to a label key on a node, if any (first match). -/
def Node.labelValue? (node : Node) (k : String) : Option String :=
  match node.Labels with
  | none => none
  | some m => m.lookup k

/-- The node whose label `k` is bound to `v`, the other labels being those of `node`. -/
def Node.withLabel (node : Node) (k v : String) : Node :=
  { Labels := some (GoMap.set (node.Labels.getD []) k v) }

/-- A node carries one of the four newer role label keys. -/
def Node.hasNewerLabel (node : Node) : Prop :=
  node.hasLabel "node-role.kubernetes.io/master" ∨
  node.hasLabel "node-role.kubernetes.io/control-plane" ∨
  node.hasLabel "node-role.kubernetes.io/node" ∨
  node.hasLabel "node-role.kubernetes.io/api-server"

/-! ## upup/pkg/fi/cloudup/openstacktasks/poolassociation_fitask.go -/

/-- Go `fi.Lifecycle`, a string type. -/
abbrev fi.Lifecycle := String

/-- The task struct `PoolAssociation`. The generated accessors use the fields `Name`
(`*string`) and `Lifecycle` (`fi.Lifecycle`); the remaining fields of the struct are
declared elsewhere and are carried as `rest : ρ`. -/
structure PoolAssociation (ρ : Type) where
  Name : Option String
  Lifecycle : fi.Lifecycle
  rest : ρ
  deriving DecidableEq, Repr

namespace PoolAssociation

variable {ρ : Type}

/-- Go `func (o *PoolAssociation) GetLifecycle() fi.Lifecycle`: the result and the task
after the call. -/
def GetLifecycle (o : PoolAssociation ρ) : fi.Lifecycle × PoolAssociation ρ :=
  (o.Lifecycle, o)

/-- Go `func (o *PoolAssociation) SetLifecycle(lifecycle fi.Lifecycle)`: the task after
the call. -/
def SetLifecycle (o : PoolAssociation ρ) (lifecycle : fi.Lifecycle) : PoolAssociation ρ :=
  { o with Lifecycle := lifecycle }

/-- Go `func (o *PoolAssociation) GetName() *string`: the result and the task after the
call. -/
def GetName (o : PoolAssociation ρ) : Option String × PoolAssociation ρ :=
  (o.Name, o)

end PoolAssociation

/-! ## pkg/model/components/apiserver.go -/

/-- A nil-able Go slice. -/
abbrev Slice (α : Type) := Option (List α)

/-- Go `append(s, xs...)`. -/
def Slice.append {α : Type} (s : Slice α) (xs : List α) : Slice α :=
  some (s.getD [] ++ xs)

/-- Go `fi.BoolValue(p)`: the pointee, `false` for nil. -/
def fi.BoolValue (p : Option Bool) : Bool :=
  p.getD false

/-- Go `strings.TrimPrefix(s, p)`: `s` without the leading `p` when `s` starts with `p`,
otherwise `s`. -/
def TrimPrefix (s p : String) : String :=
  if p.data.isPrefixOf s.data then ⟨s.data.drop p.data.length⟩ else s

/-- Constant `v1.NodeInternalIP` of k8s.io/api/core/v1. -/
def NodeInternalIP : String := "InternalIP"

/-- Constant `v1.NodeHostName` of k8s.io/api/core/v1. -/
def NodeHostName : String := "Hostname"

/-- Constant `v1.NodeExternalIP` of k8s.io/api/core/v1. -/
def NodeExternalIP : String := "ExternalIP"

/-- The fields of `kops.EtcdMemberSpec` are not read by the code; members are only
counted. -/
structure EtcdMemberSpec where
  Name : String
  deriving DecidableEq, Repr

/-- The fields of `kops.EtcdClusterSpec` that the code reads. -/
structure EtcdClusterSpec where
  Name : String
  Version : String
  Members : List EtcdMemberSpec
  EnableEtcdTLS : Bool
  deriving DecidableEq, Repr

/-- The fields of `kops.KubeAPIServerConfig` that the code reads or writes. The zero
value `&kops.KubeAPIServerConfig{}` is the default instance. -/
structure KubeAPIServerConfig where
  APIServerCount : Option Int := none
  StorageBackend : Option String := none
  KubeletPreferredAddressTypes : Slice String := none
  AuthenticationTokenWebhookConfigFile : Option String := none
  AuthorizationMode : Option String := none
  EnableBootstrapAuthToken : Option Bool := none
  RequestheaderAllowedNames : Slice String := none
  RequestheaderExtraHeaderPrefixes : Slice String := none
  RequestheaderGroupHeaders : Slice String := none
  RequestheaderUsernameHeaders : Slice String := none
  Image : String := ""
  CloudProvider : String := ""
  LogLevel : Int := 0
  SecurePort : Int := 0
  BindAddress : String := ""
  AllowPrivileged : Option Bool := none
  ServiceClusterIPRange : String := ""
  EtcdServers : Slice String := none
  EtcdServersOverrides : Slice String := none
  EnableAdmissionPlugins : Slice String := none
  AppendAdmissionPlugins : Slice String := none
  AnonymousAuth : Option Bool := none
  InsecureBindAddress : String := ""
  InsecurePort : Int := 0
  deriving DecidableEq, Repr

/-- Go `kops.AuthenticationSpec`: only the nil-ness of `Kopeio` is read. -/
structure AuthenticationSpec where
  Kopeio : Option Unit
  deriving DecidableEq, Repr

/-- Go `kops.AuthorizationSpec`: only the nil-ness of `AlwaysAllow` and `RBAC` is read. -/
structure AuthorizationSpec where
  AlwaysAllow : Option Unit
  RBAC : Option Unit
  deriving DecidableEq, Repr

/-- The fields of `kops.ClusterSpec` that the code reads or writes. -/
structure ClusterSpec where
  KubeAPIServer : Option KubeAPIServerConfig
  EtcdClusters : List EtcdClusterSpec
  Authentication : Option AuthenticationSpec
  Authorization : Option AuthorizationSpec
  CloudProvider : String
  ExternalCloudControllerManager : Option Unit
  ServiceClusterIPRange : String
  deriving DecidableEq, Repr

/-- The part of `semver.Version` (github.com/blang/semver/v4) that the code reads. -/
structure SemverVersion where
  Major : Nat
  Minor : Nat
  Patch : Nat
  deriving DecidableEq, Repr

/-- What `KubeAPIServerOptionsBuilder` and its callees outside this file provide: the
builder context `b` (`IsKubernetesGTE`, `AssetBuilder` as used by `Image`), the methods
of the API types, the cloud provider constants, and the semver library. None of them
writes to the cluster spec. -/
structure Builder where
  /-- Go `semver.Parse`: the version or the text of the parse error. -/
  semverParse : String → Except String SemverVersion
  /-- Go `Image(component, clusterSpec, b.AssetBuilder)`: the image or the text of the
  error. -/
  Image : String → ClusterSpec → Except String String
  /-- Go `b.IsKubernetesGTE(version)`. -/
  IsKubernetesGTE : String → Bool
  /-- Go `(*kops.AuthorizationSpec).IsEmpty()`. -/
  AuthorizationIsEmpty : AuthorizationSpec → Bool
  /-- Go `(*kops.ClusterSpec).IsIPv6Only()`. -/
  IsIPv6Only : ClusterSpec → Bool
  CloudProviderAWS : String
  CloudProviderGCE : String
  CloudProviderDO : String
  CloudProviderOpenstack : String
  CloudProviderALI : String
  CloudProviderAzure : String

/-- Errors that `BuildOptions` returns, by the statement that makes them. -/
inductive BuildError where
  /-- Made by `fmt.Errorf("no instance groups found")`. -/
  | noInstanceGroups
  /-- The error of `semver.Parse`, returned as it is. -/
  | semverParse (text : String)
  /-- The error of `Image`, returned as it is. -/
  | image (text : String)
  /-- Made by `fmt.Errorf("unknown cloudprovider %q", clusterSpec.CloudProvider)`. -/
  | unknownCloudProvider (cloudProvider : String)
  deriving DecidableEq, Repr

/-- Outcome of a call of `BuildOptions`: the returned error (`none` is `nil`) with the
cluster spec as the call leaves it behind the pointer, or a panic. -/
inductive BuildResult where
  | returned (err : Option BuildError) (clusterSpec : ClusterSpec)
  | panicked (p : Panic)
  deriving DecidableEq, Repr

/-- In `buildAPIServerCount`: the `counts` map after the loop over the etcd clusters. -/
def buildAPIServerCount.counts (clusterSpec : ClusterSpec) : GoMap Nat :=
  clusterSpec.EtcdClusters.foldl
    (fun counts etcdCluster => GoMap.set counts etcdCluster.Name etcdCluster.Members.length)
    []

/-- Go `func (b *KubeAPIServerOptionsBuilder) buildAPIServerCount(clusterSpec) int`; the
result is a slice length, hence a natural number. -/
def buildAPIServerCount (clusterSpec : ClusterSpec) : Nat :=
  let counts := buildAPIServerCount.counts clusterSpec
  let count := (GoMap.index 0 counts "main").1
  count

/-- The etcd clusters named "main", in list order. -/
def mainEtcdClusters (clusterSpec : ClusterSpec) : List EtcdClusterSpec :=
  clusterSpec.EtcdClusters.filter (fun etcdCluster => etcdCluster.Name = "main")

/-- Go `func (b *KubeAPIServerOptionsBuilder) configureAggregation(clusterSpec) error`,
on the `KubeAPIServer` object of the cluster spec: the object after the call and the
returned error. -/
def configureAggregation (c : KubeAPIServerConfig) : KubeAPIServerConfig × Option BuildError :=
  ({ c with
      RequestheaderAllowedNames := some ["aggregator"]
      RequestheaderExtraHeaderPrefixes := some ["X-Remote-Extra-"]
      RequestheaderGroupHeaders := some ["X-Remote-Group"]
      RequestheaderUsernameHeaders := some ["X-Remote-User"] }, none)

/-- Outcome of a block of `BuildOptions` that can end the call: the `KubeAPIServer`
object after the block, an error returned by the block (the object is then as before
the block), or a panic. -/
inductive Step where
  | next (c : KubeAPIServerConfig)
  | fail (err : BuildError)
  | panic (p : Panic)
  deriving DecidableEq, Repr

namespace BuildOptions

/-- The cluster spec behind the pointer when its `KubeAPIServer` object is `c`. -/
def store (clusterSpec : ClusterSpec) (c : KubeAPIServerConfig) : ClusterSpec :=
  { clusterSpec with KubeAPIServer := some c }

/-- Lines 41-44: `c := clusterSpec.KubeAPIServer`, allocated when nil. -/
def config (clusterSpec : ClusterSpec) : KubeAPIServerConfig :=
  match clusterSpec.KubeAPIServer with
  | none => {}
  | some c => c

/-- Lines 46-52: `if c.APIServerCount == nil { ... }`. -/
def apiServerCount (clusterSpec : ClusterSpec) (c : KubeAPIServerConfig) : Step :=
  if c.APIServerCount = none then
    let count := buildAPIServerCount clusterSpec
    if count = 0 then
      .fail .noInstanceGroups
    else
      .next { c with APIServerCount := some (int32 count) }
  else
    .next c

/-- Lines 55-63: `if c.StorageBackend == nil { ... }`. -/
def storageBackend (b : Builder) (clusterSpec : ClusterSpec) (c : KubeAPIServerConfig) : Step :=
  if c.StorageBackend = none then
    match clusterSpec.EtcdClusters with
    | [] => .panic .indexOutOfRange
    | first :: _ =>
      match b.semverParse (TrimPrefix first.Version "v") with
      | .error err => .fail (.semverParse err)
      | .ok sem => .next { c with StorageBackend := some ("etcd" ++ toString sem.Major) }
  else
    .next c

/-- Lines 65-72: `if c.KubeletPreferredAddressTypes == nil { ... }`. -/
def kubeletPreferredAddressTypes (c : KubeAPIServerConfig) : KubeAPIServerConfig :=
  if c.KubeletPreferredAddressTypes = none then
    -- We prioritize the internal IP above the hostname
    { c with KubeletPreferredAddressTypes := some [NodeInternalIP, NodeHostName, NodeExternalIP] }
  else
    c

/-- Lines 74-78: `if clusterSpec.Authentication != nil { ... }`. -/
def authentication (clusterSpec : ClusterSpec) (c : KubeAPIServerConfig) : KubeAPIServerConfig :=
  match clusterSpec.Authentication with
  | none => c
  | some authentication =>
    match authentication.Kopeio with
    | none => c
    | some _ => { c with AuthenticationTokenWebhookConfigFile := some "/etc/kubernetes/authn.config" }

/-- Lines 80-96: the authorization mode. -/
def authorization (b : Builder) (clusterSpec : ClusterSpec) (c : KubeAPIServerConfig) :
    KubeAPIServerConfig :=
  match clusterSpec.Authorization with
  | none => c
  | some authorization =>
    if b.AuthorizationIsEmpty authorization then
      c
    else if authorization.AlwaysAllow ≠ none then
      { c with AuthorizationMode := some "AlwaysAllow" }
    else if authorization.RBAC ≠ none then
      let modes : List String :=
        if b.IsKubernetesGTE "1.19" || fi.BoolValue c.EnableBootstrapAuthToken then ["Node"] else []
      let modes := modes ++ ["RBAC"]
      { c with AuthorizationMode := some (String.intercalate "," modes) }
    else
      c

/-- Lines 108-123: the `switch` on the cloud provider. -/
def cloudProvider (b : Builder) (clusterSpec : ClusterSpec) (c : KubeAPIServerConfig) : Step :=
  if clusterSpec.CloudProvider = b.CloudProviderAWS then
    .next { c with CloudProvider := "aws" }
  else if clusterSpec.CloudProvider = b.CloudProviderGCE then
    .next { c with CloudProvider := "gce" }
  else if clusterSpec.CloudProvider = b.CloudProviderDO then
    .next { c with CloudProvider := "external" }
  else if clusterSpec.CloudProvider = b.CloudProviderOpenstack then
    .next { c with CloudProvider := "openstack" }
  else if clusterSpec.CloudProvider = b.CloudProviderALI then
    .next { c with CloudProvider := "alicloud" }
  else if clusterSpec.CloudProvider = b.CloudProviderAzure then
    .next { c with CloudProvider := "azure" }
  else
    .fail (.unknownCloudProvider clusterSpec.CloudProvider)

/-- Lines 143-154: the body of the loop over the etcd clusters. -/
def etcdServers (c : KubeAPIServerConfig) (etcdCluster : EtcdClusterSpec) : KubeAPIServerConfig :=
  let protocol := if etcdCluster.EnableEtcdTLS then "https" else "http"
  if etcdCluster.Name = "main" then
    { c with EtcdServers := Slice.append c.EtcdServers [protocol ++ "://127.0.0.1:4001"] }
  else if etcdCluster.Name = "events" then
    { c with EtcdServersOverrides :=
        Slice.append c.EtcdServersOverrides ["/events#" ++ protocol ++ "://127.0.0.1:4002"] }
  else
    c

/-- Lines 125-180: the assignments after the cloud provider `switch`. -/
def settings (b : Builder) (clusterSpec : ClusterSpec) (c : KubeAPIServerConfig) :
    KubeAPIServerConfig :=
  let c := if clusterSpec.ExternalCloudControllerManager ≠ none then
      { c with CloudProvider := "external" } else c
  let c := { c with LogLevel := 2, SecurePort := 443 }
  let c := if b.IsIPv6Only (store clusterSpec c) then
      { c with BindAddress := "::" } else { c with BindAddress := "0.0.0.0" }
  let c := { c with
    AllowPrivileged := some true
    ServiceClusterIPRange := clusterSpec.ServiceClusterIPRange
    EtcdServers := none
    EtcdServersOverrides := none }
  let c := clusterSpec.EtcdClusters.foldl etcdServers c
  let c := { c with
    EnableAdmissionPlugins :=
      Slice.append
        (some ["NamespaceLifecycle", "LimitRanger", "ServiceAccount", "PersistentVolumeLabel",
          "DefaultStorageClass", "DefaultTolerationSeconds", "MutatingAdmissionWebhook",
          "ValidatingAdmissionWebhook", "NodeRestriction", "ResourceQuota"])
        (c.AppendAdmissionPlugins.getD []) }
  -- We make sure to disable AnonymousAuth
  { c with AnonymousAuth := some false, InsecureBindAddress := "", InsecurePort := 0 }

end BuildOptions

/-- Go `func (b *KubeAPIServerOptionsBuilder) BuildOptions(o interface{}) error`, called
with a non-nil `*kops.ClusterSpec`. -/
def BuildOptions (b : Builder) (clusterSpec : ClusterSpec) : BuildResult :=
  let c := BuildOptions.config clusterSpec
  match BuildOptions.apiServerCount clusterSpec c with
  | .panic p => .panicked p
  | .fail err => .returned (some err) (BuildOptions.store clusterSpec c)
  | .next c =>
  match BuildOptions.storageBackend b clusterSpec c with
  | .panic p => .panicked p
  | .fail err => .returned (some err) (BuildOptions.store clusterSpec c)
  | .next c =>
  let c := BuildOptions.kubeletPreferredAddressTypes c
  let c := BuildOptions.authentication clusterSpec c
  let c := BuildOptions.authorization b clusterSpec c
  match configureAggregation c with
  | (c, some _) => .returned none (BuildOptions.store clusterSpec c)
  | (c, none) =>
  match b.Image "kube-apiserver" (BuildOptions.store clusterSpec c) with
  | .error err => .returned (some (.image err)) (BuildOptions.store clusterSpec c)
  | .ok image =>
  let c := { c with Image := image }
  match BuildOptions.cloudProvider b clusterSpec c with
  | .panic p => .panicked p
  | .fail err => .returned (some err) (BuildOptions.store clusterSpec c)
  | .next c =>
  .returned none (BuildOptions.store clusterSpec (BuildOptions.settings b clusterSpec c))

/-- The three fields for which `BuildOptions` only fills in defaults. -/
def KubeAPIServerConfig.defaulted (c : KubeAPIServerConfig) :
    Option Int × Option String × Slice String :=
  (c.APIServerCount, c.StorageBackend, c.KubeletPreferredAddressTypes)

/-- The cluster spec whose etcd clusters after the first carry the versions given by
`versions`, everything else being as in `clusterSpec`. -/
def ClusterSpec.withOtherVersions (clusterSpec : ClusterSpec)
    (versions : EtcdClusterSpec → String) : ClusterSpec :=
  { clusterSpec with
    EtcdClusters :=
      match clusterSpec.EtcdClusters with
      | [] => []
      | first :: rest =>
        first :: rest.map (fun etcdCluster => { etcdCluster with Version := versions etcdCluster }) }

/-- The `KubeAPIServer` object that a call leaves behind, when the call returns. -/
def BuildResult.config? : BuildResult → Option KubeAPIServerConfig
  | .returned _ clusterSpec => clusterSpec.KubeAPIServer
  | .panicked _ => none

/-- The error that a call returns, when it returns one. -/
def BuildResult.err? : BuildResult → Option BuildError
  | .returned err _ => err
  | .panicked _ => none

/-- A call succeeds when it returns the nil error. -/
def BuildResult.succeeds : BuildResult → Bool
  | .returned none _ => true
  | _ => false

/-- Value of a non-empty run of decimal digits. -/
def decimal? (cs : List Char) : Option Nat :=
  match cs with
  | [] => none
  | _ => cs.foldl
      (fun acc ch => acc.bind fun n =>
        if ch.isDigit then some (10 * n + (ch.toNat - '0'.toNat)) else none)
      (some 0)

/-- The runs of characters between dots. -/
def splitDots : List Char → List (List Char)
  | [] => [[]]
  | ch :: cs =>
    if ch = '.' then [] :: splitDots cs
    else
      match splitDots cs with
      | [] => [[ch]]
      | run :: runs => (ch :: run) :: runs

/-- A parser instance for concrete runs: it accepts `MAJOR.MINOR.PATCH` with decimal
numbers and rejects everything else. -/
def numericSemver (s : String) : Except String SemverVersion :=
  match (splitDots s.data).map decimal? with
  | [some major, some minor, some patch] => .ok ⟨major, minor, patch⟩
  | _ => .error "No Major.Minor.Patch elements found"

/-- A builder instance for concrete runs: kops' cloud provider identifiers, an image
name built from the component, Kubernetes 1.19 or later, IPv4. -/
def sampleBuilder : Builder where
  semverParse := numericSemver
  Image := fun component _ => .ok ("k8s.gcr.io/" ++ component)
  IsKubernetesGTE := fun _ => true
  AuthorizationIsEmpty := fun a => a.RBAC.isNone && a.AlwaysAllow.isNone
  IsIPv6Only := fun _ => false
  CloudProviderAWS := "aws"
  CloudProviderGCE := "gce"
  CloudProviderDO := "digitalocean"
  CloudProviderOpenstack := "openstack"
  CloudProviderALI := "alicloud"
  CloudProviderAzure := "azure"

/-- An etcd cluster with `n` members. -/
def sampleEtcd (name version : String) (n : Nat) : EtcdClusterSpec :=
  { Name := name, Version := version, Members := List.replicate n ⟨"a"⟩, EnableEtcdTLS := false }

/-- A cluster spec with the given `KubeAPIServer` object and etcd clusters, on AWS. -/
def sampleSpec (c : Option KubeAPIServerConfig) (etcd : List EtcdClusterSpec) : ClusterSpec :=
  { KubeAPIServer := c, EtcdClusters := etcd, Authentication := none, Authorization := none,
    CloudProvider := "aws", ExternalCloudControllerManager := none,
    ServiceClusterIPRange := "100.64.0.0/13" }

/-! ## Facts about the Go runtime model -/

theorem GoMap.index_snd_iff {V : Type} (zero : V) (m : GoMap V) (k : String) :
    (GoMap.index zero m k).2 = true ↔ ∃ v, (k, v) ∈ m := by
  induction m with
  | nil => simp [GoMap.index, List.lookup]
  | cons p m ih =>
    obtain ⟨k', v'⟩ := p
    by_cases h : k = k'
    · subst h
      simp [GoMap.index, List.lookup]
    · have hb : (k == k') = false := by simpa using h
      have ih' := ih
      simp only [GoMap.index, List.lookup, hb] at ih ⊢
      rw [ih]
      simp [h]

theorem GoMap.index_fst {V : Type} (zero : V) (m : GoMap V) (k : String) :
    (GoMap.index zero m k).1 = (m.lookup k).getD zero := by
  unfold GoMap.index
  cases m.lookup k <;> rfl

theorem GoMap.lookup_set {V : Type} (m : GoMap V) (k k' : String) (v : V) :
    (GoMap.set m k' v).lookup k = if k = k' then some v else m.lookup k := by
  unfold GoMap.set
  by_cases h : k = k'
  · subst h
    simp [List.lookup]
  · have hb : (k == k') = false := by simpa using h
    simp only [List.lookup, hb, h, if_false]
    induction m with
    | nil => simp [List.lookup]
    | cons p m ih =>
      obtain ⟨k₁, v₁⟩ := p
      by_cases h₁ : k₁ = k'
      · subst h₁
        simp [List.filter_cons, List.lookup, hb, ih]
      · have hn : (k₁ != k') = true := by simpa using h₁
        by_cases h₂ : k = k₁
        · subst h₂
          simp [List.filter_cons, List.lookup, hn]
        · have hb₂ : (k == k₁) = false := by simpa using h₂
          simp [List.filter_cons, List.lookup, hn, hb₂, ih]

/-! ## GetNodeRole -/

theorem Node.label_snd_iff (node : Node) (k : String) :
    (node.label k).2 = true ↔ node.hasLabel k := by
  unfold Node.label Node.hasLabel
  cases hL : node.Labels with
  | none => simp
  | some m => simp [GoMap.index_snd_iff]

theorem Node.label_fst (node : Node) (k : String) :
    (node.label k).1 = (node.labelValue? k).getD "" := by
  unfold Node.label Node.labelValue?
  cases hL : node.Labels with
  | none => rfl
  | some m => simp [GoMap.index_fst]

theorem Node.label_withLabel (node : Node) (k k' v : String) (h : k ≠ k') :
    (node.withLabel k' v).label k = node.label k := by
  unfold Node.label Node.withLabel
  cases hL : node.Labels with
  | none => simp [GoMap.index, GoMap.lookup_set, h]
  | some m => simp [GoMap.index, GoMap.lookup_set, h]

/-- C1: `GetNodeRole` follows a fixed precedence on the presence of the newer label
keys: "master" when `node-role.kubernetes.io/master` is present (with any value),
otherwise "control-plane" when `node-role.kubernetes.io/control-plane` is present,
otherwise "node" when `node-role.kubernetes.io/node` is present, otherwise "apiserver"
when `node-role.kubernetes.io/api-server` is present; and when one of the four is
present the result is the same whatever value the older `kubernetes.io/role` label is
given. -/
theorem GetNodeRole_precedence (node : Node) :
    (node.hasLabel "node-role.kubernetes.io/master" →
      GetNodeRole (some node) = .ok "master") ∧
    (¬ node.hasLabel "node-role.kubernetes.io/master" →
      node.hasLabel "node-role.kubernetes.io/control-plane" →
      GetNodeRole (some node) = .ok "control-plane") ∧
    (¬ node.hasLabel "node-role.kubernetes.io/master" →
      ¬ node.hasLabel "node-role.kubernetes.io/control-plane" →
      node.hasLabel "node-role.kubernetes.io/node" →
      GetNodeRole (some node) = .ok "node") ∧
    (¬ node.hasLabel "node-role.kubernetes.io/master" →
      ¬ node.hasLabel "node-role.kubernetes.io/control-plane" →
      ¬ node.hasLabel "node-role.kubernetes.io/node" →
      node.hasLabel "node-role.kubernetes.io/api-server" →
      GetNodeRole (some node) = .ok "apiserver") ∧
    (node.hasNewerLabel → ∀ v : String,
      GetNodeRole (some (node.withLabel "kubernetes.io/role" v)) = GetNodeRole (some node)) := by
  refine ⟨?_, ?_, ?_, ?_, ?_⟩
  · intro h
    simp [GetNodeRole, Node.label_snd_iff, h]
  · intro h₁ h
    simp [GetNodeRole, Node.label_snd_iff, h₁, h]
  · intro h₁ h₂ h
    simp [GetNodeRole, Node.label_snd_iff, h₁, h₂, h]
  · intro h₁ h₂ h₃ h
    simp [GetNodeRole, Node.label_snd_iff, h₁, h₂, h₃, h]
  · intro h v
    have e₁ := Node.label_withLabel node "node-role.kubernetes.io/master" "kubernetes.io/role" v
      (by decide)
    have e₂ := Node.label_withLabel node "node-role.kubernetes.io/control-plane"
      "kubernetes.io/role" v (by decide)
    have e₃ := Node.label_withLabel node "node-role.kubernetes.io/node" "kubernetes.io/role" v
      (by decide)
    have e₄ := Node.label_withLabel node "node-role.kubernetes.io/api-server"
      "kubernetes.io/role" v (by decide)
    simp only [GetNodeRole]
    rw [e₁, e₂, e₃, e₄]
    unfold Node.hasNewerLabel at h
    simp only [← Node.label_snd_iff] at h
    split_ifs with h₁ h₂ h₃ h₄
    · rfl
    · rfl
    · rfl
    · rfl
    · exact absurd h (by simp [h₁, h₂, h₃, h₄])

/-- Node labelled both `kubernetes.io/role=node` and `node-role.kubernetes.io/master`
with the empty value. -/
theorem GetNodeRole_precedence_witness :
    Node.hasLabel ⟨some [("kubernetes.io/role", "node"), ("node-role.kubernetes.io/master", "")]⟩
      "node-role.kubernetes.io/master" ∧
    GetNodeRole
      (some ⟨some [("kubernetes.io/role", "node"), ("node-role.kubernetes.io/master", "")]⟩) =
      .ok "master" :=
  ⟨⟨_, rfl, "", by simp⟩,
   (GetNodeRole_precedence _).1 ⟨_, rfl, "", by simp⟩⟩

/-- C2: for a node with none of the four newer role label keys, `GetNodeRole` returns
the value of the older `kubernetes.io/role` label, and the empty string when that label
is absent, as it is for a nil or an empty label map; on every node it returns a
string. -/
theorem GetNodeRole_older_label (node : Node) :
    (¬ node.hasNewerLabel →
      GetNodeRole (some node) =
        .ok (match node.labelValue? "kubernetes.io/role" with
          | some role => role
          | none => "")) ∧
    GetNodeRole (some ⟨none⟩) = .ok "" ∧
    GetNodeRole (some ⟨some []⟩) = .ok "" ∧
    ∃ role, GetNodeRole (some node) = .ok role := by
  refine ⟨?_, ?_, ?_, ?_⟩
  · intro h
    unfold Node.hasNewerLabel at h
    simp only [not_or, ← Node.label_snd_iff] at h
    obtain ⟨h₁, h₂, h₃, h₄⟩ := h
    simp only [GetNodeRole, h₁, h₂, h₃, h₄, if_false, Node.label_fst]
    cases node.labelValue? "kubernetes.io/role" <;> rfl
  · simp [GetNodeRole, Node.label]
  · simp [GetNodeRole, Node.label, GoMap.index]
  · simp only [GetNodeRole]
    split_ifs <;> exact ⟨_, rfl⟩

/-- Node labelled `kubernetes.io/role=master` and nothing else. -/
theorem GetNodeRole_older_label_witness :
    ¬ Node.hasNewerLabel ⟨some [("kubernetes.io/role", "master")]⟩ ∧
    GetNodeRole (some ⟨some [("kubernetes.io/role", "master")]⟩) = .ok "master" := by
  have h : ¬ Node.hasNewerLabel ⟨some [("kubernetes.io/role", "master")]⟩ := by
    simp [Node.hasNewerLabel, Node.hasLabel]
  exact ⟨h, (GetNodeRole_older_label _).1 h⟩

/-! ## buildAPIServerCount -/

theorem buildAPIServerCount.lookup_counts (l : List EtcdClusterSpec) (k : String) :
    (l.foldl (fun counts etcdCluster =>
        GoMap.set counts etcdCluster.Name etcdCluster.Members.length) []).lookup k =
      ((l.filter (fun etcdCluster => etcdCluster.Name = k)).getLast?).map
        (fun etcdCluster => etcdCluster.Members.length) := by
  induction l using List.reverseRecOn with
  | nil => simp [List.lookup]
  | append_singleton l a ih =>
    rw [List.foldl_append, List.filter_append]
    simp only [List.foldl_cons, List.foldl_nil, GoMap.lookup_set, ih]
    by_cases h : a.Name = k
    · simp [h, List.filter_cons]
    · have h' : ¬ k = a.Name := fun e => h e.symm
      simp [h, h', List.filter_cons]

theorem buildAPIServerCount_eq (clusterSpec : ClusterSpec) :
    buildAPIServerCount clusterSpec =
      match (mainEtcdClusters clusterSpec).getLast? with
      | some etcdCluster => etcdCluster.Members.length
      | none => 0 := by
  simp only [buildAPIServerCount, GoMap.index_fst, buildAPIServerCount.counts,
    buildAPIServerCount.lookup_counts, mainEtcdClusters]
  cases (clusterSpec.EtcdClusters.filter (fun etcdCluster => etcdCluster.Name = "main")).getLast?
    <;> rfl

/-- C3: `buildAPIServerCount` returns the number of members of the etcd cluster named
"main": of the last one in list order when several have that name, and 0 when none
has; two cluster specs with the same "main" clusters get the same count, whatever
their other etcd clusters are. -/
theorem buildAPIServerCount_last_main (clusterSpec : ClusterSpec) :
    (buildAPIServerCount clusterSpec =
      match (mainEtcdClusters clusterSpec).getLast? with
      | some etcdCluster => etcdCluster.Members.length
      | none => 0) ∧
    (mainEtcdClusters clusterSpec = [] → buildAPIServerCount clusterSpec = 0) ∧
    (∀ other : ClusterSpec, mainEtcdClusters other = mainEtcdClusters clusterSpec →
      buildAPIServerCount other = buildAPIServerCount clusterSpec) := by
  refine ⟨buildAPIServerCount_eq clusterSpec, ?_, ?_⟩
  · intro h
    rw [buildAPIServerCount_eq, h]
    rfl
  · intro other h
    rw [buildAPIServerCount_eq, buildAPIServerCount_eq, h]

/-- Two clusters named "main" with 3 and 5 members among two others: the count is 5,
with and without the others, and it is 0 for the others alone. -/
theorem buildAPIServerCount_last_main_witness :
    buildAPIServerCount (sampleSpec none
      [sampleEtcd "main" "3.4.13" 3, sampleEtcd "events" "3.4.13" 7,
       sampleEtcd "main" "3.4.13" 5, sampleEtcd "other" "3.4.13" 2]) = 5 ∧
    buildAPIServerCount (sampleSpec none
      [sampleEtcd "main" "3.4.13" 3, sampleEtcd "main" "3.4.13" 5]) = 5 ∧
    buildAPIServerCount (sampleSpec none
      [sampleEtcd "events" "3.4.13" 7, sampleEtcd "other" "3.4.13" 2]) = 0 :=
  ⟨((buildAPIServerCount_last_main _).1).trans (by decide),
   ((buildAPIServerCount_last_main (sampleSpec none
      [sampleEtcd "main" "3.4.13" 3, sampleEtcd "events" "3.4.13" 7,
       sampleEtcd "main" "3.4.13" 5, sampleEtcd "other" "3.4.13" 2])).2.2 _ (by decide)).trans
     (((buildAPIServerCount_last_main _).1).trans (by decide)),
   (buildAPIServerCount_last_main _).2.1 (by decide)⟩

/-! ## PoolAssociation -/

/-- C7: after `o.SetLifecycle(l)` the accessor `o.GetLifecycle()` returns `l`;
`GetLifecycle` and `GetName` return the task's `Lifecycle` and `Name` fields, and
`GetName` returns nil for a task without a name. -/
theorem PoolAssociation.GetLifecycle_SetLifecycle {ρ : Type} (o : PoolAssociation ρ)
    (l : fi.Lifecycle) :
    (o.SetLifecycle l).GetLifecycle.1 = l ∧
    o.GetLifecycle.1 = o.Lifecycle ∧
    o.GetName.1 = o.Name ∧
    (GetName { o with Name := none }).1 = none :=
  ⟨rfl, rfl, rfl, rfl⟩

/-- C8: `SetLifecycle` changes only the `Lifecycle` field: `GetName` returns the same
value after it as before, and the `Name` field and the remaining fields are as before;
`GetLifecycle` and `GetName` leave the task as it is. -/
theorem PoolAssociation.SetLifecycle_frame {ρ : Type} (o : PoolAssociation ρ)
    (l : fi.Lifecycle) :
    (o.SetLifecycle l).GetName.1 = o.GetName.1 ∧
    (o.SetLifecycle l).Name = o.Name ∧
    (o.SetLifecycle l).rest = o.rest ∧
    o.GetLifecycle.2 = o ∧
    o.GetName.2 = o :=
  ⟨rfl, rfl, rfl, rfl, rfl⟩

/-! ## BuildOptions: the blocks after the defaults leave the defaulted fields alone -/

theorem BuildOptions.authentication_defaulted (clusterSpec : ClusterSpec)
    (c : KubeAPIServerConfig) :
    (authentication clusterSpec c).defaulted = c.defaulted := by
  unfold authentication
  split
  · rfl
  · split <;> rfl

theorem BuildOptions.authorization_defaulted (b : Builder) (clusterSpec : ClusterSpec)
    (c : KubeAPIServerConfig) :
    (authorization b clusterSpec c).defaulted = c.defaulted := by
  unfold authorization
  split
  · rfl
  · split_ifs <;> rfl

theorem configureAggregation_defaulted (c : KubeAPIServerConfig) :
    (configureAggregation c).2 = none ∧
      (configureAggregation c).1.defaulted = c.defaulted :=
  ⟨rfl, rfl⟩

theorem BuildOptions.cloudProvider_defaulted (b : Builder) (clusterSpec : ClusterSpec)
    (c : KubeAPIServerConfig) :
    (∃ c', cloudProvider b clusterSpec c = .next c' ∧ c'.defaulted = c.defaulted) ∨
      cloudProvider b clusterSpec c = .fail (.unknownCloudProvider clusterSpec.CloudProvider) := by
  unfold cloudProvider
  split_ifs
  all_goals first
    | exact Or.inr rfl
    | exact Or.inl ⟨_, rfl, rfl⟩

theorem BuildOptions.etcdServers_defaulted (c : KubeAPIServerConfig)
    (etcdCluster : EtcdClusterSpec) :
    (etcdServers c etcdCluster).defaulted = c.defaulted := by
  unfold etcdServers
  split_ifs <;> rfl

theorem BuildOptions.foldl_etcdServers_defaulted (l : List EtcdClusterSpec)
    (c : KubeAPIServerConfig) :
    (l.foldl etcdServers c).defaulted = c.defaulted := by
  induction l generalizing c with
  | nil => rfl
  | cons a l ih => rw [List.foldl_cons, ih, etcdServers_defaulted]

theorem BuildOptions.settings_defaulted (b : Builder) (clusterSpec : ClusterSpec)
    (c : KubeAPIServerConfig) :
    (settings b clusterSpec c).defaulted = c.defaulted := by
  unfold settings
  simp only [KubeAPIServerConfig.defaulted]
  have h := foldl_etcdServers_defaulted clusterSpec.EtcdClusters
  simp only [KubeAPIServerConfig.defaulted] at h
  rw [h]
  split_ifs <;> rfl

theorem BuildOptions.after_defaults (b : Builder) (clusterSpec : ClusterSpec)
    (c₁ c₂ : KubeAPIServerConfig)
    (h₁ : apiServerCount clusterSpec (config clusterSpec) = .next c₁)
    (h₂ : storageBackend b clusterSpec c₁ = .next c₂) :
    ∃ err c', BuildOptions b clusterSpec = .returned err (store clusterSpec c') ∧
      c'.defaulted = (kubeletPreferredAddressTypes c₂).defaulted ∧
      err ≠ some .noInstanceGroups ∧ ∀ text, err ≠ some (.semverParse text) := by
  simp only [BuildOptions, h₁, h₂, configureAggregation]
  generalize hc : authorization b clusterSpec
    (authentication clusterSpec (kubeletPreferredAddressTypes c₂)) = c₅
  have h₅ : c₅.defaulted = (kubeletPreferredAddressTypes c₂).defaulted := by
    rw [← hc, authorization_defaulted, authentication_defaulted]
  split
  · exact ⟨_, _, rfl, h₅, by simp, by simp⟩
  · rename_i image _
    split
    · rename_i p hp
      rcases cloudProvider_defaulted b clusterSpec _ with ⟨c₈, h₈, _⟩ | h₈
      · rw [h₈] at hp
        exact absurd hp (by simp)
      · rw [h₈] at hp
        exact absurd hp (by simp)
    · rename_i err hp
      rcases cloudProvider_defaulted b clusterSpec _ with ⟨c₈, h₈, _⟩ | h₈
      · rw [h₈] at hp
        exact absurd hp (by simp)
      · rw [h₈] at hp
        injection hp with hp
        subst hp
        exact ⟨_, _, rfl, h₅, by simp, by simp⟩
    · rename_i c₈ hp
      rcases cloudProvider_defaulted b clusterSpec _ with ⟨c₉, h₈, hd⟩ | h₈
      · rw [h₈] at hp
        injection hp with hp
        subst hp
        refine ⟨_, _, rfl, ?_, by simp, by simp⟩
        rw [settings_defaulted, hd, ← h₅]
        rfl
      · rw [h₈] at hp
        exact absurd hp (by simp)

/-! ## BuildOptions: the default blocks -/

theorem BuildOptions.config_field {α : Type} (clusterSpec : ClusterSpec)
    (f : KubeAPIServerConfig → Option α) (hf : f {} = none) :
    f (config clusterSpec) = clusterSpec.KubeAPIServer.bind f := by
  unfold config
  cases clusterSpec.KubeAPIServer with
  | none => simpa using hf
  | some c => rfl

theorem BuildOptions.apiServerCount_cases (clusterSpec : ClusterSpec) (c : KubeAPIServerConfig) :
    (c.APIServerCount = none ∧ buildAPIServerCount clusterSpec = 0 ∧
      apiServerCount clusterSpec c = .fail .noInstanceGroups) ∨
    (c.APIServerCount = none ∧ buildAPIServerCount clusterSpec ≠ 0 ∧
      apiServerCount clusterSpec c =
        .next { c with APIServerCount := some (int32 (buildAPIServerCount clusterSpec)) }) ∨
    (c.APIServerCount ≠ none ∧ apiServerCount clusterSpec c = .next c) := by
  unfold apiServerCount
  by_cases h : c.APIServerCount = none
  · by_cases h₀ : buildAPIServerCount clusterSpec = 0
    · exact Or.inl ⟨h, h₀, by simp [h, h₀]⟩
    · exact Or.inr (Or.inl ⟨h, h₀, by simp [h, h₀]⟩)
  · exact Or.inr (Or.inr ⟨h, by simp [h]⟩)

theorem BuildOptions.storageBackend_cases (b : Builder) (clusterSpec : ClusterSpec)
    (c : KubeAPIServerConfig) :
    (c.StorageBackend ≠ none ∧ storageBackend b clusterSpec c = .next c) ∨
    (c.StorageBackend = none ∧ clusterSpec.EtcdClusters = [] ∧
      storageBackend b clusterSpec c = .panic .indexOutOfRange) ∨
    (c.StorageBackend = none ∧ ∃ first rest text, clusterSpec.EtcdClusters = first :: rest ∧
      b.semverParse (TrimPrefix first.Version "v") = .error text ∧
      storageBackend b clusterSpec c = .fail (.semverParse text)) ∨
    (c.StorageBackend = none ∧ ∃ first rest sem, clusterSpec.EtcdClusters = first :: rest ∧
      b.semverParse (TrimPrefix first.Version "v") = .ok sem ∧
      storageBackend b clusterSpec c =
        .next { c with StorageBackend := some ("etcd" ++ toString sem.Major) }) := by
  unfold storageBackend
  by_cases h : c.StorageBackend = none
  · simp only [h, if_true]
    cases hl : clusterSpec.EtcdClusters with
    | nil => exact Or.inr (Or.inl ⟨trivial, rfl, rfl⟩)
    | cons first rest =>
      cases hp : b.semverParse (TrimPrefix first.Version "v") with
      | error text =>
        exact Or.inr (Or.inr (Or.inl ⟨trivial, first, rest, text, rfl, hp, by simp [hp]⟩))
      | ok sem =>
        exact Or.inr (Or.inr (Or.inr ⟨trivial, first, rest, sem, rfl, hp, by simp [hp]⟩))
  · exact Or.inl ⟨h, by simp [h]⟩

theorem BuildOptions.fail_apiServerCount (b : Builder) (clusterSpec : ClusterSpec)
    (err : BuildError) (h₁ : apiServerCount clusterSpec (config clusterSpec) = .fail err) :
    BuildOptions b clusterSpec = .returned (some err) (store clusterSpec (config clusterSpec)) := by
  simp only [BuildOptions, h₁]

theorem BuildOptions.fail_storageBackend (b : Builder) (clusterSpec : ClusterSpec)
    (c₁ : KubeAPIServerConfig) (err : BuildError)
    (h₁ : apiServerCount clusterSpec (config clusterSpec) = .next c₁)
    (h₂ : storageBackend b clusterSpec c₁ = .fail err) :
    BuildOptions b clusterSpec = .returned (some err) (store clusterSpec c₁) := by
  simp only [BuildOptions, h₁, h₂]

theorem BuildOptions.panic_storageBackend (b : Builder) (clusterSpec : ClusterSpec)
    (c₁ : KubeAPIServerConfig) (p : Panic)
    (h₁ : apiServerCount clusterSpec (config clusterSpec) = .next c₁)
    (h₂ : storageBackend b clusterSpec c₁ = .panic p) :
    BuildOptions b clusterSpec = .panicked p := by
  simp only [BuildOptions, h₁, h₂]

theorem buildAPIServerCount_nil (clusterSpec : ClusterSpec)
    (h : clusterSpec.EtcdClusters = []) : buildAPIServerCount clusterSpec = 0 := by
  simp [buildAPIServerCount, buildAPIServerCount.counts, h, GoMap.index, List.lookup]

theorem int32_of_lt (n : Nat) (h : n < 2147483648) : int32 n = n := by
  unfold int32
  omega

/-- Once the `APIServerCount` block has let the call through with the object `c₁`, the
call does not return "no instance groups found"; and unless the `StorageBackend` block
panics, the call returns and leaves the `APIServerCount` of `c₁` behind. -/
theorem BuildOptions.after_apiServerCount (b : Builder) (clusterSpec : ClusterSpec)
    (c₁ : KubeAPIServerConfig)
    (h₁ : apiServerCount clusterSpec (config clusterSpec) = .next c₁) :
    (BuildOptions b clusterSpec).err? ≠ some .noInstanceGroups ∧
    ((c₁.StorageBackend ≠ none ∨ clusterSpec.EtcdClusters ≠ []) →
      ∃ err c', BuildOptions b clusterSpec = .returned err (store clusterSpec c') ∧
        c'.APIServerCount = c₁.APIServerCount) := by
  rcases storageBackend_cases b clusterSpec c₁ with
    ⟨_, h₂⟩ | ⟨hs, hn, h₂⟩ | ⟨_, first, rest, text, _, _, h₂⟩ | ⟨_, first, rest, sem, _, _, h₂⟩
  · obtain ⟨err, c', hr, hd, he, _⟩ := after_defaults b clusterSpec c₁ _ h₁ h₂
    refine ⟨by rw [hr]; exact he, fun _ => ⟨err, c', hr, ?_⟩⟩
    have := congrArg Prod.fst hd
    simp only [KubeAPIServerConfig.defaulted] at this
    rw [this]
    unfold kubeletPreferredAddressTypes
    split_ifs <;> rfl
  · rw [panic_storageBackend b clusterSpec c₁ _ h₁ h₂]
    refine ⟨by simp [BuildResult.err?], fun h => ?_⟩
    rcases h with h | h
    · exact absurd hs h
    · exact absurd hn h
  · rw [fail_storageBackend b clusterSpec c₁ _ h₁ h₂]
    exact ⟨by simp [BuildResult.err?], fun _ => ⟨_, _, rfl, rfl⟩⟩
  · obtain ⟨err, c', hr, hd, he, _⟩ := after_defaults b clusterSpec c₁ _ h₁ h₂
    refine ⟨by rw [hr]; exact he, fun _ => ⟨err, c', hr, ?_⟩⟩
    have := congrArg Prod.fst hd
    simp only [KubeAPIServerConfig.defaulted] at this
    rw [this]
    unfold kubeletPreferredAddressTypes
    split_ifs <;> rfl

theorem BuildOptions.config_apiServerCount (clusterSpec : ClusterSpec) :
    (config clusterSpec).APIServerCount =
      clusterSpec.KubeAPIServer.bind (fun c => c.APIServerCount) :=
  config_field clusterSpec (fun c => c.APIServerCount) rfl

theorem BuildOptions.apiServerCount_default (b : Builder) (clusterSpec : ClusterSpec)
    (hunset : clusterSpec.KubeAPIServer.bind (fun c => c.APIServerCount) = none)
    (hcount : buildAPIServerCount clusterSpec ≠ 0) :
    (BuildOptions b clusterSpec).config?.bind (fun c => c.APIServerCount) =
      some (int32 (buildAPIServerCount clusterSpec)) := by
  rw [← config_apiServerCount] at hunset
  rcases apiServerCount_cases clusterSpec (config clusterSpec) with
    ⟨_, h₀, _⟩ | ⟨_, _, h₁⟩ | ⟨hset, _⟩
  · exact absurd h₀ hcount
  · have hne : clusterSpec.EtcdClusters ≠ [] := fun h =>
      hcount (buildAPIServerCount_nil clusterSpec h)
    obtain ⟨err, c', hr, hc⟩ := (after_apiServerCount b clusterSpec _ h₁).2 (Or.inr hne)
    rw [hr]
    simp [BuildResult.config?, store, hc]
  · exact absurd hunset hset

theorem BuildOptions.noInstanceGroups_iff (b : Builder) (clusterSpec : ClusterSpec)
    (hunset : clusterSpec.KubeAPIServer.bind (fun c => c.APIServerCount) = none) :
    (BuildOptions b clusterSpec).err? = some .noInstanceGroups ↔
      buildAPIServerCount clusterSpec = 0 := by
  rw [← config_apiServerCount] at hunset
  rcases apiServerCount_cases clusterSpec (config clusterSpec) with
    ⟨_, h₀, h₁⟩ | ⟨_, h₀, h₁⟩ | ⟨hset, _⟩
  · rw [fail_apiServerCount b clusterSpec _ h₁]
    simp [BuildResult.err?, h₀]
  · have := (after_apiServerCount b clusterSpec _ h₁).1
    simp [this, h₀]
  · exact absurd hunset hset

/-- C4 (amended): when `KubeAPIServer.APIServerCount` is unset, `BuildOptions` returns
the error "no instance groups found" if and only if `buildAPIServerCount` is 0, which
is when no etcd cluster is named "main" or the last one so named has no members;
otherwise it sets `APIServerCount` to that count converted to `int32`, which is the
count itself when the count is below 2^31. When `APIServerCount` is already set, the
error is not returned. -/
theorem BuildOptions_apiServerCount (b : Builder) (clusterSpec : ClusterSpec) :
    (clusterSpec.KubeAPIServer.bind (fun c => c.APIServerCount) = none →
      ((BuildOptions b clusterSpec).err? = some .noInstanceGroups ↔
        buildAPIServerCount clusterSpec = 0)) ∧
    (buildAPIServerCount clusterSpec = 0 ↔
      ∀ etcdCluster, (mainEtcdClusters clusterSpec).getLast? = some etcdCluster →
        etcdCluster.Members = []) ∧
    (clusterSpec.KubeAPIServer.bind (fun c => c.APIServerCount) = none →
      buildAPIServerCount clusterSpec ≠ 0 →
      (BuildOptions b clusterSpec).config?.bind (fun c => c.APIServerCount) =
        some (int32 (buildAPIServerCount clusterSpec)) ∧
      (buildAPIServerCount clusterSpec < 2147483648 →
        (BuildOptions b clusterSpec).config?.bind (fun c => c.APIServerCount) =
          some (buildAPIServerCount clusterSpec : Int))) ∧
    (clusterSpec.KubeAPIServer.bind (fun c => c.APIServerCount) ≠ none →
      (BuildOptions b clusterSpec).err? ≠ some .noInstanceGroups) := by
  refine ⟨BuildOptions.noInstanceGroups_iff b clusterSpec, ?_, ?_, ?_⟩
  · rw [buildAPIServerCount_eq]
    cases (mainEtcdClusters clusterSpec).getLast? with
    | none => simp
    | some etcdCluster => simp [List.length_eq_zero]
  · intro hunset hcount
    have h := BuildOptions.apiServerCount_default b clusterSpec hunset hcount
    refine ⟨h, fun hlt => ?_⟩
    rw [h, int32_of_lt _ hlt]
  · intro hset
    rw [← BuildOptions.config_apiServerCount] at hset
    rcases BuildOptions.apiServerCount_cases clusterSpec (BuildOptions.config clusterSpec) with
      ⟨hunset, _, _⟩ | ⟨hunset, _, _⟩ | ⟨_, h₁⟩
    · exact absurd hunset hset
    · exact absurd hunset hset
    · exact (BuildOptions.after_apiServerCount b clusterSpec _ h₁).1

/-- Unset `APIServerCount` and a "main" etcd cluster of 3 members: `APIServerCount`
becomes 3. -/
theorem BuildOptions_apiServerCount_witness :
    (sampleSpec none [sampleEtcd "main" "3.4.13" 3]).KubeAPIServer.bind
      (fun c => c.APIServerCount) = none ∧
    buildAPIServerCount (sampleSpec none [sampleEtcd "main" "3.4.13" 3]) ≠ 0 ∧
    (BuildOptions sampleBuilder (sampleSpec none [sampleEtcd "main" "3.4.13" 3])).config?.bind
      (fun c => c.APIServerCount) = some 3 :=
  ⟨rfl, by decide,
   (((BuildOptions_apiServerCount sampleBuilder
      (sampleSpec none [sampleEtcd "main" "3.4.13" 3])).2.2.1 rfl (by decide)).2
      (by decide)).trans (by decide)⟩

/-- C4 as stated fails on a "main" etcd cluster of 2^31 members: `APIServerCount` is
unset, the count is 2147483648 and not 0, and the call succeeds with `APIServerCount`
set to -2147483648, which is not the count. -/
theorem BuildOptions_apiServerCount_counterexample :
    (sampleSpec none [sampleEtcd "main" "3.4.13" 2147483648]).KubeAPIServer.bind
      (fun c => c.APIServerCount) = none ∧
    buildAPIServerCount (sampleSpec none [sampleEtcd "main" "3.4.13" 2147483648]) =
      2147483648 ∧
    (BuildOptions sampleBuilder
      (sampleSpec none [sampleEtcd "main" "3.4.13" 2147483648])).config?.bind
      (fun c => c.APIServerCount) = some (-2147483648) ∧
    ¬ (BuildOptions sampleBuilder
      (sampleSpec none [sampleEtcd "main" "3.4.13" 2147483648])).config?.bind
      (fun c => c.APIServerCount) =
        some (buildAPIServerCount
          (sampleSpec none [sampleEtcd "main" "3.4.13" 2147483648]) : Int) := by
  have hcount : buildAPIServerCount
      (sampleSpec none [sampleEtcd "main" "3.4.13" 2147483648]) = 2147483648 := by
    rw [buildAPIServerCount_eq]
    have hmain : mainEtcdClusters (sampleSpec none [sampleEtcd "main" "3.4.13" 2147483648]) =
        [sampleEtcd "main" "3.4.13" 2147483648] := by
      simp only [mainEtcdClusters, sampleSpec, sampleEtcd, List.filter_cons, List.filter_nil,
        decide_True, if_true]
    rw [hmain]
    simp only [List.getLast?_singleton, sampleEtcd, List.length_replicate]
  have h := BuildOptions.apiServerCount_default sampleBuilder
    (sampleSpec none [sampleEtcd "main" "3.4.13" 2147483648]) rfl (by rw [hcount]; decide)
  rw [hcount] at h
  have hv : int32 ((2147483648 : Nat) : Int) = -2147483648 := by decide
  rw [hv] at h
  refine ⟨rfl, hcount, h, ?_⟩
  rw [h, hcount]
  decide

/-! ## BuildOptions: defaults only -/

theorem BuildOptions.apiServerCount_next (clusterSpec : ClusterSpec)
    (c c₁ : KubeAPIServerConfig) (h : apiServerCount clusterSpec c = .next c₁) :
    (∀ v, c.APIServerCount = some v → c₁.APIServerCount = some v) ∧
    c₁.StorageBackend = c.StorageBackend ∧
    c₁.KubeletPreferredAddressTypes = c.KubeletPreferredAddressTypes := by
  rcases apiServerCount_cases clusterSpec c with ⟨_, _, h'⟩ | ⟨hn, _, h'⟩ | ⟨_, h'⟩
  · rw [h'] at h
    exact absurd h (by simp)
  · rw [h'] at h
    injection h with h
    subst h
    exact ⟨fun v hv => absurd (hn.symm.trans hv) (by simp), rfl, rfl⟩
  · rw [h'] at h
    injection h with h
    subst h
    exact ⟨fun _ hv => hv, rfl, rfl⟩

theorem BuildOptions.storageBackend_next (b : Builder) (clusterSpec : ClusterSpec)
    (c c₂ : KubeAPIServerConfig) (h : storageBackend b clusterSpec c = .next c₂) :
    c₂.APIServerCount = c.APIServerCount ∧
    (∀ v, c.StorageBackend = some v → c₂.StorageBackend = some v) ∧
    c₂.KubeletPreferredAddressTypes = c.KubeletPreferredAddressTypes := by
  rcases storageBackend_cases b clusterSpec c with
    ⟨_, h'⟩ | ⟨_, _, h'⟩ | ⟨_, _, _, _, _, _, h'⟩ | ⟨hn, _, _, _, _, _, h'⟩
  · rw [h'] at h
    injection h with h
    subst h
    exact ⟨rfl, fun _ hv => hv, rfl⟩
  · rw [h'] at h
    exact absurd h (by simp)
  · rw [h'] at h
    exact absurd h (by simp)
  · rw [h'] at h
    injection h with h
    subst h
    exact ⟨rfl, fun v hv => absurd (hn.symm.trans hv) (by simp), rfl⟩

theorem BuildOptions.kubeletPreferredAddressTypes_spec (c : KubeAPIServerConfig) :
    (kubeletPreferredAddressTypes c).APIServerCount = c.APIServerCount ∧
    (kubeletPreferredAddressTypes c).StorageBackend = c.StorageBackend ∧
    (∀ v, c.KubeletPreferredAddressTypes = some v →
      (kubeletPreferredAddressTypes c).KubeletPreferredAddressTypes = some v) ∧
    (c.KubeletPreferredAddressTypes = none →
      (kubeletPreferredAddressTypes c).KubeletPreferredAddressTypes =
        some [NodeInternalIP, NodeHostName, NodeExternalIP]) := by
  unfold kubeletPreferredAddressTypes
  by_cases h : c.KubeletPreferredAddressTypes = none
  · simp [h]
  · simp [h]

/-- A call that returns the nil error has passed both fallible default blocks. -/
theorem BuildOptions.of_success (b : Builder) (clusterSpec clusterSpec' : ClusterSpec)
    (h : BuildOptions b clusterSpec = .returned none clusterSpec') :
    ∃ c₁ c₂ c', apiServerCount clusterSpec (config clusterSpec) = .next c₁ ∧
      storageBackend b clusterSpec c₁ = .next c₂ ∧
      clusterSpec' = store clusterSpec c' ∧
      c'.defaulted = (kubeletPreferredAddressTypes c₂).defaulted := by
  cases h₁ : apiServerCount clusterSpec (config clusterSpec) with
  | panic p => simp [BuildOptions, h₁] at h
  | fail err => simp [BuildOptions, h₁] at h
  | next c₁ =>
    cases h₂ : storageBackend b clusterSpec c₁ with
    | panic p => simp [BuildOptions, h₁, h₂] at h
    | fail err => simp [BuildOptions, h₁, h₂] at h
    | next c₂ =>
      obtain ⟨err, c', hr, hd, _, _⟩ := after_defaults b clusterSpec c₁ c₂ h₁ h₂
      rw [hr] at h
      injection h with _ hs
      exact ⟨c₁, c₂, c', rfl, h₂, hs.symm, hd⟩

/-- C5: on every cluster spec on which `BuildOptions` succeeds, each of
`APIServerCount`, `StorageBackend` and `KubeletPreferredAddressTypes` that was set
before the call has the same value after it, and `KubeletPreferredAddressTypes`, when
it was unset, is `[InternalIP, Hostname, ExternalIP]` in that order. -/
theorem BuildOptions_defaults_only (b : Builder) (clusterSpec clusterSpec' : ClusterSpec)
    (h : BuildOptions b clusterSpec = .returned none clusterSpec') :
    ∃ c', clusterSpec'.KubeAPIServer = some c' ∧
      (∀ v, clusterSpec.KubeAPIServer.bind (fun c => c.APIServerCount) = some v →
        c'.APIServerCount = some v) ∧
      (∀ v, clusterSpec.KubeAPIServer.bind (fun c => c.StorageBackend) = some v →
        c'.StorageBackend = some v) ∧
      (∀ v, clusterSpec.KubeAPIServer.bind (fun c => c.KubeletPreferredAddressTypes) = some v →
        c'.KubeletPreferredAddressTypes = some v) ∧
      (clusterSpec.KubeAPIServer.bind (fun c => c.KubeletPreferredAddressTypes) = none →
        c'.KubeletPreferredAddressTypes = some ["InternalIP", "Hostname", "ExternalIP"]) := by
  obtain ⟨c₁, c₂, c', h₁, h₂, hs, hd⟩ := BuildOptions.of_success b clusterSpec clusterSpec' h
  obtain ⟨a₁, a₂, a₃⟩ := BuildOptions.apiServerCount_next clusterSpec _ c₁ h₁
  obtain ⟨s₁, s₂, s₃⟩ := BuildOptions.storageBackend_next b clusterSpec c₁ c₂ h₂
  obtain ⟨k₁, k₂, k₃, k₄⟩ := BuildOptions.kubeletPreferredAddressTypes_spec c₂
  simp only [KubeAPIServerConfig.defaulted, Prod.mk.injEq] at hd
  obtain ⟨d₁, d₂, d₃⟩ := hd
  rw [← BuildOptions.config_field clusterSpec (fun c => c.APIServerCount) rfl,
    ← BuildOptions.config_field clusterSpec (fun c => c.StorageBackend) rfl,
    ← BuildOptions.config_field clusterSpec (fun c => c.KubeletPreferredAddressTypes) rfl]
  refine ⟨c', by rw [hs]; rfl, ?_, ?_, ?_, ?_⟩
  · intro v hv
    rw [d₁, k₁, s₁]
    exact a₁ v hv
  · intro v hv
    rw [d₂, k₂]
    exact s₂ v (a₂.trans hv)
  · intro v hv
    rw [d₃]
    exact k₃ v (s₃.trans (a₃.trans hv))
  · intro hv
    rw [d₃]
    exact k₄ (s₃.trans (a₃.trans hv))

/-- With `APIServerCount` 7 and `StorageBackend` "etcd2" set, `KubeletPreferredAddressTypes`
unset, one "main" etcd cluster of 3 members at version 3.4.13: the call succeeds, keeps
7 and "etcd2", and sets the address types. -/
theorem BuildOptions_defaults_only_witness :
    ∃ clusterSpec' c',
      BuildOptions sampleBuilder
        (sampleSpec (some { APIServerCount := some 7, StorageBackend := some "etcd2" })
          [sampleEtcd "main" "3.4.13" 3]) = .returned none clusterSpec' ∧
      clusterSpec'.KubeAPIServer = some c' ∧
      c'.APIServerCount = some 7 ∧ c'.StorageBackend = some "etcd2" ∧
      c'.KubeletPreferredAddressTypes = some ["InternalIP", "Hostname", "ExternalIP"] := by
  have hrun : ∃ clusterSpec', BuildOptions sampleBuilder
      (sampleSpec (some { APIServerCount := some 7, StorageBackend := some "etcd2" })
        [sampleEtcd "main" "3.4.13" 3]) = .returned none clusterSpec' := ⟨_, rfl⟩
  obtain ⟨clusterSpec', hrun⟩ := hrun
  obtain ⟨c', hc, h₁, h₂, _, h₄⟩ := BuildOptions_defaults_only _ _ _ hrun
  exact ⟨clusterSpec', c', hrun, hc, h₁ _ rfl, h₂ _ rfl, h₄ rfl⟩

/-! ## BuildOptions: the storage backend -/

theorem TrimPrefix_v_cons (cs : List Char) : TrimPrefix ⟨'v' :: cs⟩ "v" = ⟨cs⟩ := by
  simp [TrimPrefix, List.isPrefixOf]

theorem TrimPrefix_v_of_head (s : String) (h : s.data.head? ≠ some 'v') :
    TrimPrefix s "v" = s := by
  unfold TrimPrefix
  cases hs : s.data with
  | nil => simp [List.isPrefixOf]
  | cons ch cs =>
    have : ch ≠ 'v' := by
      intro e
      rw [hs, e] at h
      exact h rfl
    have this' : ¬ 'v' = ch := fun e => this e.symm
    simp [List.isPrefixOf, this']

theorem buildAPIServerCount_withOtherVersions (clusterSpec : ClusterSpec)
    (versions : EtcdClusterSpec → String) :
    buildAPIServerCount (clusterSpec.withOtherVersions versions) =
      buildAPIServerCount clusterSpec := by
  unfold buildAPIServerCount buildAPIServerCount.counts ClusterSpec.withOtherVersions
  cases clusterSpec.EtcdClusters with
  | nil => rfl
  | cons first rest => simp only [List.foldl_cons, List.foldl_map]

theorem BuildOptions.storageBackend_default (b : Builder) (clusterSpec : ClusterSpec)
    (first : EtcdClusterSpec) (rest : List EtcdClusterSpec)
    (hetcd : clusterSpec.EtcdClusters = first :: rest)
    (hunset : clusterSpec.KubeAPIServer.bind (fun c => c.StorageBackend) = none)
    (hpast : clusterSpec.KubeAPIServer.bind (fun c => c.APIServerCount) ≠ none ∨
      buildAPIServerCount clusterSpec ≠ 0) :
    (∃ sem, b.semverParse (TrimPrefix first.Version "v") = .ok sem ∧
      (BuildOptions b clusterSpec).config?.bind (fun c => c.StorageBackend) =
        some ("etcd" ++ toString sem.Major) ∧
      ∀ text, (BuildOptions b clusterSpec).err? ≠ some (.semverParse text)) ∨
    (∃ text c₁, b.semverParse (TrimPrefix first.Version "v") = .error text ∧
      BuildOptions b clusterSpec = .returned (some (.semverParse text)) (store clusterSpec c₁) ∧
      c₁.StorageBackend = none) := by
  rw [← config_field clusterSpec (fun c => c.StorageBackend) rfl] at hunset
  rw [← config_apiServerCount] at hpast
  have hstep : ∃ c₁, apiServerCount clusterSpec (config clusterSpec) = .next c₁ := by
    rcases apiServerCount_cases clusterSpec (config clusterSpec) with
      ⟨hn, h₀, _⟩ | ⟨_, _, h'⟩ | ⟨_, h'⟩
    · rcases hpast with hp | hp
      · exact absurd hn hp
      · exact absurd h₀ hp
    · exact ⟨_, h'⟩
    · exact ⟨_, h'⟩
  obtain ⟨c₁, h₁⟩ := hstep
  have hs₁ : c₁.StorageBackend = none :=
    (apiServerCount_next clusterSpec _ c₁ h₁).2.1.trans hunset
  rcases storageBackend_cases b clusterSpec c₁ with
    ⟨hset, _⟩ | ⟨_, hnil, _⟩ | ⟨_, first', rest', text, hl, hp, h₂⟩ |
    ⟨_, first', rest', sem, hl, hp, h₂⟩
  · exact absurd hs₁ hset
  · rw [hetcd] at hnil
    exact absurd hnil (by simp)
  · rw [hetcd] at hl
    injection hl with hf _
    subst hf
    exact Or.inr ⟨text, c₁, hp, fail_storageBackend b clusterSpec c₁ _ h₁ h₂, hs₁⟩
  · rw [hetcd] at hl
    injection hl with hf _
    subst hf
    obtain ⟨err, c', hr, hd, _, he⟩ := after_defaults b clusterSpec c₁ _ h₁ h₂
    refine Or.inl ⟨sem, hp, ?_, ?_⟩
    · have hsb : c'.StorageBackend = some ("etcd" ++ toString sem.Major) := by
        have := congrArg (fun d => d.2.1) hd
        simp only [KubeAPIServerConfig.defaulted] at this
        rw [this, (kubeletPreferredAddressTypes_spec _).2.1]
      rw [hr]
      simp [BuildResult.config?, store, hsb]
    · intro text
      rw [hr]
      exact he text

/-- C6 (amended): when `StorageBackend` is unset, the etcd cluster list has a first
cluster, and the call gets past the `APIServerCount` block (`APIServerCount` is set, or
`buildAPIServerCount` is not 0), `BuildOptions` derives `StorageBackend` from the
version of the first etcd cluster with one leading "v" removed: when that parses as a
semantic version with major number M, `StorageBackend` is set to "etcd" followed by the
decimal M; when it does not parse, `BuildOptions` returns the parse error and leaves
`StorageBackend` unset. Changing the versions of the other etcd clusters changes
neither. -/
theorem BuildOptions_storageBackend (b : Builder) (clusterSpec : ClusterSpec)
    (first : EtcdClusterSpec) (rest : List EtcdClusterSpec)
    (hetcd : clusterSpec.EtcdClusters = first :: rest)
    (hunset : clusterSpec.KubeAPIServer.bind (fun c => c.StorageBackend) = none)
    (hpast : clusterSpec.KubeAPIServer.bind (fun c => c.APIServerCount) ≠ none ∨
      buildAPIServerCount clusterSpec ≠ 0) :
    (∀ sem, b.semverParse (TrimPrefix first.Version "v") = .ok sem →
      (BuildOptions b clusterSpec).config?.bind (fun c => c.StorageBackend) =
        some ("etcd" ++ toString sem.Major)) ∧
    (∀ text, b.semverParse (TrimPrefix first.Version "v") = .error text →
      (BuildOptions b clusterSpec).err? = some (.semverParse text) ∧
      ∃ c', (BuildOptions b clusterSpec).config? = some c' ∧ c'.StorageBackend = none) ∧
    (∀ cs : List Char, TrimPrefix ⟨'v' :: cs⟩ "v" = ⟨cs⟩) ∧
    (∀ s : String, s.data.head? ≠ some 'v' → TrimPrefix s "v" = s) ∧
    (∀ versions : EtcdClusterSpec → String,
      (BuildOptions b (clusterSpec.withOtherVersions versions)).config?.bind
          (fun c => c.StorageBackend) =
        (BuildOptions b clusterSpec).config?.bind (fun c => c.StorageBackend) ∧
      ∀ text,
        (BuildOptions b (clusterSpec.withOtherVersions versions)).err? =
            some (.semverParse text) ↔
          (BuildOptions b clusterSpec).err? = some (.semverParse text)) := by
  have key := BuildOptions.storageBackend_default b clusterSpec first rest hetcd hunset hpast
  refine ⟨?_, ?_, TrimPrefix_v_cons, TrimPrefix_v_of_head, ?_⟩
  · intro sem hp
    rcases key with ⟨sem', hp', hc, _⟩ | ⟨text, _, hp', _, _⟩
    · rw [hp] at hp'
      injection hp' with hp'
      rw [hp']
      exact hc
    · rw [hp] at hp'
      exact absurd hp' (by simp)
  · intro text hp
    rcases key with ⟨sem', hp', _, _⟩ | ⟨text', c₁, hp', hr, hs⟩
    · rw [hp] at hp'
      exact absurd hp' (by simp)
    · rw [hp] at hp'
      injection hp' with hp'
      subst hp'
      rw [hr]
      exact ⟨rfl, c₁, rfl, hs⟩
  · intro versions
    have hetcd' : (clusterSpec.withOtherVersions versions).EtcdClusters =
        first :: rest.map (fun etcdCluster =>
          { etcdCluster with Version := versions etcdCluster }) := by
      simp only [ClusterSpec.withOtherVersions, hetcd]
    have hpast' : (clusterSpec.withOtherVersions versions).KubeAPIServer.bind
          (fun c => c.APIServerCount) ≠ none ∨
        buildAPIServerCount (clusterSpec.withOtherVersions versions) ≠ 0 := by
      rw [buildAPIServerCount_withOtherVersions]
      exact hpast
    have key' := BuildOptions.storageBackend_default b (clusterSpec.withOtherVersions versions)
      first _ hetcd' hunset hpast'
    rcases key with ⟨sem, hp, hc, he⟩ | ⟨text, c₁, hp, hr, hs⟩
    · rcases key' with ⟨sem', hp', hc', he'⟩ | ⟨text', _, hp', _, _⟩
      · rw [hp] at hp'
        injection hp' with hp'
        subst hp'
        refine ⟨hc'.trans hc.symm, fun text => ?_⟩
        exact ⟨fun h => absurd h (he' text), fun h => absurd h (he text)⟩
      · rw [hp] at hp'
        exact absurd hp' (by simp)
    · rcases key' with ⟨sem', hp', _, _⟩ | ⟨text', c₁', hp', hr', hs'⟩
      · rw [hp] at hp'
        exact absurd hp' (by simp)
      · rw [hp] at hp'
        injection hp' with hp'
        subst hp'
        rw [hr, hr']
        simp [BuildResult.config?, BuildResult.err?, BuildOptions.store, hs, hs']

/-- Unset `StorageBackend`, a "main" etcd cluster of 3 members first, and another
cluster whose version does not parse: the versions "v3.4.13" and "3.4.13" of the first
cluster both give "etcd3". -/
theorem BuildOptions_storageBackend_witness :
    (BuildOptions sampleBuilder
      (sampleSpec none [sampleEtcd "main" "v3.4.13" 3, sampleEtcd "events" "bogus" 3])).config?.bind
      (fun c => c.StorageBackend) = some "etcd3" ∧
    (BuildOptions sampleBuilder
      (sampleSpec none [sampleEtcd "main" "3.4.13" 3, sampleEtcd "events" "bogus" 3])).config?.bind
      (fun c => c.StorageBackend) = some "etcd3" :=
  ⟨(BuildOptions_storageBackend sampleBuilder
      (sampleSpec none [sampleEtcd "main" "v3.4.13" 3, sampleEtcd "events" "bogus" 3])
      _ _ rfl rfl (Or.inr (by decide))).1 ⟨3, 4, 13⟩ rfl,
   (BuildOptions_storageBackend sampleBuilder
      (sampleSpec none [sampleEtcd "main" "3.4.13" 3, sampleEtcd "events" "bogus" 3])
      _ _ rfl rfl (Or.inr (by decide))).1 ⟨3, 4, 13⟩ rfl⟩

/-- C6 as stated fails when `APIServerCount` is unset and no etcd cluster is named
"main": `StorageBackend` is unset and the version of the first etcd cluster parses with
major number 3, but the call returns "no instance groups found" and leaves
`StorageBackend` unset; and with a version that does not parse, the call returns that
same error, not the parse error. -/
theorem BuildOptions_storageBackend_counterexample :
    ((sampleSpec none [sampleEtcd "events" "v3.4.13" 3]).KubeAPIServer.bind
        (fun c => c.StorageBackend) = none ∧
      sampleBuilder.semverParse (TrimPrefix "v3.4.13" "v") = .ok ⟨3, 4, 13⟩ ∧
      BuildOptions sampleBuilder (sampleSpec none [sampleEtcd "events" "v3.4.13" 3]) =
        .returned (some .noInstanceGroups)
          (sampleSpec (some {}) [sampleEtcd "events" "v3.4.13" 3]) ∧
      ¬ (BuildOptions sampleBuilder
          (sampleSpec none [sampleEtcd "events" "v3.4.13" 3])).config?.bind
          (fun c => c.StorageBackend) = some "etcd3") ∧
    (sampleBuilder.semverParse (TrimPrefix "bogus" "v") =
        .error "No Major.Minor.Patch elements found" ∧
      BuildOptions sampleBuilder (sampleSpec none [sampleEtcd "events" "bogus" 3]) =
        .returned (some .noInstanceGroups)
          (sampleSpec (some {}) [sampleEtcd "events" "bogus" 3]) ∧
      ¬ (BuildOptions sampleBuilder
          (sampleSpec none [sampleEtcd "events" "bogus" 3])).err? =
          some (.semverParse "No Major.Minor.Patch elements found")) :=
  ⟨⟨rfl, rfl, by decide, by decide⟩, ⟨rfl, by decide, by decide⟩⟩

end Kops
